import Mathlib

/-!
Verification of the TCAS air-traffic simulator core against its specification.

Shallow embedding conventions.

* Go `float64` values are modelled as `ℚ`.  The only irrational operation in the
  modelled code is `math.Sqrt` inside `Distance`; every modelled branch condition
  compares a Euclidean distance with a constant (or with zero), so the embedding
  carries the *square* of each distance and squares the constant it is compared
  against, which encodes exactly the same branch decisions (monotonicity of the
  square root on nonnegative reals).  Places where the code uses a distance
  linearly (never in a branch that any claim depends on) receive the square root
  through an explicit function parameter `sqrtA : ℚ → ℚ` standing for the
  floating-point `math.Sqrt`; all theorems below are universally quantified over it.
* Go `time.Time` instants and `time.Duration` values are modelled as `ℚ`
  (nanosecond ticks): `After` is `<` read right-to-left, `Before` is `<`,
  `Equal` is `=`, `Sub` is subtraction, `Add` is addition.
* `math/rand.Float64()` is modelled by consuming the head of an explicit stream
  `rng : List ℚ` of pre-drawn uniform values; a function returns the unconsumed
  remainder of the stream.
* Mutation through Go pointers is modelled by explicit state passing: a function
  that can write to a `*Plane`, `*Airport` or `*SimulationState` returns the
  updated values.  Mutex lock/unlock calls made by `Land` are recorded in an
  explicit event trace so that lock-ordering properties can be stated.
* Writes to the event sinks (`ConsoleLog`, `TCASLog`, `log.Printf`) only format
  text; they touch no simulation state and are omitted.
* Go panics on out-of-range indexing of `FlightLog[len-1]` for an empty log;
  the embedding reads the last element with `List.getLastD default`.
-/

/-! ## Definitions: the shallow embedding of the simulator -/

structure Coordinate where
  x : ℚ
  y : ℚ
  z : ℚ
deriving DecidableEq, Inhabited

def distSq (p1 p2 : Coordinate) : ℚ :=
  (p1.x - p2.x) * (p1.x - p2.x) + (p1.y - p2.y) * (p1.y - p2.y) +
    (p1.z - p2.z) * (p1.z - p2.z)

structure FlightPath where
  depature : Coordinate
  destination : Coordinate
deriving DecidableEq, Inhabited

structure Flight where
  flightID : String
  flightSchedule : FlightPath
  takeoffTime : ℚ
  destinationArrivalTime : ℚ
  cruisingAltitude : ℚ
  depatureAirPort : String
  arrivalAirPort : String
  flightStatus : String
  actualLandingTime : ℚ
  flightPath : FlightPath
deriving DecidableEq, Inhabited

inductive TCASCapability where
  | TCASPerfect
  | TCASFaulty
deriving DecidableEq, Inhabited

structure TCASEngagement where
  engagementID : String
  flightID : String
  planeSerial : String
  otherPlaneSerial : String
  timeOfEngagement : ℚ
  willCrash : Bool
  warningTriggered : Bool
  engaged : Bool
deriving DecidableEq, Inhabited

structure Plane where
  serial : String
  planeInFlight : Bool
  cruiseSpeed : ℚ
  flightLog : List Flight
  tcasCapability : TCASCapability
  tcasEngagementRecords : List TCASEngagement
deriving DecidableEq, Inhabited

structure Runway where
  numberOfRunway : ℤ
  noOfRunwayinUse : ℤ
deriving DecidableEq, Inhabited

structure Airport where
  serial : String
  location : Coordinate
  initialPlaneAmount : ℤ
  runway : Runway
  planes : List Plane
  receivingPlane : Bool
deriving DecidableEq, Inhabited

structure SimulationState where
  airports : List Airport
  planesInFlight : List Plane
  differentAltitudes : Bool
  simIsRunning : Bool
  simEndedTime : ℚ
  currentSimTime : ℚ
deriving DecidableEq, Inhabited

def CruiseSpeed : ℚ := 10

def CollisionThresholdSq : ℚ := 50 * 50

def EpsilonSq : ℚ := (1 / 10) * (1 / 10)

def TriggerTCASSq : ℚ := 50 * 50

def TriggerEngageTCASSq : ℚ := 15 * 15

def sentinelDistSq : ℚ := (9999999 / 100) * (9999999 / 100)

def nextRand (rng : List ℚ) : ℚ × List ℚ :=
  (rng.headD 0, rng.tail)

def currentFlightID (plane1 : Plane) : String :=
  if plane1.flightLog ≠ [] then (plane1.flightLog.getLastD default).flightID else ""

def pairAndFlightMatch (p1serial p2serial fid : String) (rec : TCASEngagement) : Bool :=
  ((rec.planeSerial == p1serial && rec.otherPlaneSerial == p2serial) ||
     (rec.planeSerial == p2serial && rec.otherPlaneSerial == p1serial)) &&
    rec.flightID == fid && rec.engaged

def findExistingEngagement (plane1 plane2 : Plane) (fid : String) : Option TCASEngagement :=
  plane1.tcasEngagementRecords.find? (pairAndFlightMatch plane1.serial plane2.serial fid)

structure TcasCoreResult where
  plane1 : Plane
  plane2 : Plane
  engagement : TCASEngagement
  rng : List ℚ
deriving DecidableEq, Inhabited

def tcasCoreNewEngagement (st : SimulationState) (wallNano : ℤ) (shouldCrash : Bool)
    (plane1 plane2 : Plane) (fid : String) : TCASEngagement :=
  { engagementID := "E-" ++ plane1.serial ++ "-" ++ plane2.serial ++ "-" ++ toString wallNano
    flightID := fid
    planeSerial := plane1.serial
    otherPlaneSerial := plane2.serial
    timeOfEngagement := st.currentSimTime
    willCrash := shouldCrash
    warningTriggered := false
    engaged := true }

def tcasCore (st : SimulationState) (wallNano : ℤ) (rng : List ℚ)
    (plane1 plane2 : Plane) : TcasCoreResult :=
  let plane1FlightID := currentFlightID plane1
  if plane1FlightID = "" then
    -- not on an active flight: defensive zero-value return
    ⟨plane1, plane2, default, rng⟩
  else
    match findExistingEngagement plane1 plane2 plane1FlightID with
    | some rec =>
      -- engagement already exists for this flight and pair: reuse it unchanged
      ⟨plane1, plane2, rec, rng⟩
    | none =>
      let resolved :=
        if plane1.tcasCapability = .TCASPerfect ∧ plane2.tcasCapability = .TCASPerfect then
          (false, rng)
        else if (plane1.tcasCapability = .TCASPerfect ∧ plane2.tcasCapability = .TCASFaulty) ∨
            (plane1.tcasCapability = .TCASFaulty ∧ plane2.tcasCapability = .TCASPerfect) then
          let d := nextRand rng
          (decide (d.1 < 1 / 4), d.2)
        else if plane1.tcasCapability = .TCASFaulty ∧ plane2.tcasCapability = .TCASFaulty then
          let d := nextRand rng
          (decide (d.1 < 1 / 2), d.2)
        else
          (false, rng)
      let newEng : TCASEngagement :=
        tcasCoreNewEngagement st wallNano resolved.1 plane1 plane2 plane1FlightID
      ⟨{ plane1 with tcasEngagementRecords := plane1.tcasEngagementRecords ++ [newEng] },
        { plane2 with tcasEngagementRecords := plane2.tcasEngagementRecords ++ [newEng] },
        newEng, resolved.2⟩

def engagedCount (p : Plane) (sa sb fid : String) : Nat :=
  p.tcasEngagementRecords.countP (pairAndFlightMatch sa sb fid)

def Coordinate.subtract (a b : Coordinate) : Coordinate :=
  ⟨a.x - b.x, a.y - b.y, a.z - b.z⟩

def Coordinate.add (a b : Coordinate) : Coordinate :=
  ⟨a.x + b.x, a.y + b.y, a.z + b.z⟩

def Coordinate.mulScalar (a : Coordinate) (s : ℚ) : Coordinate :=
  ⟨a.x * s, a.y * s, a.z * s⟩

def clamp (v lo hi : ℚ) : ℚ :=
  if v < lo then lo else if hi < v then hi else v

def dot (a b : Coordinate) : ℚ :=
  a.x * b.x + a.y * b.y + a.z * b.z

def ratTrunc (q : ℚ) : ℚ :=
  ((Int.tdiv q.num (q.den : ℤ) : ℤ) : ℚ)

def FindClosestApproachDuringTransit (seg1 seg2 : FlightPath) : Coordinate × Coordinate :=
  let d1 := seg1.destination.subtract seg1.depature
  let d2 := seg2.destination.subtract seg2.depature
  let w := seg1.depature.subtract seg2.depature
  let a := dot d1 d1
  let b := dot d1 d2
  let c := dot d2 d2
  let d := dot d1 w
  let e := dot d2 w
  let denom := a * c - b * b
  let t1 := if denom = 0 then 0 else clamp ((b * e - c * d) / denom) 0 1
  let t2 := if c = 0 then 0 else clamp ((b * t1 + e) / c) 0 1
  (seg1.depature.add (d1.mulScalar t1), seg2.depature.add (d2.mulScalar t2))

def getFlightProgress (flight : Flight) (simTime : ℚ) : ℚ :=
  let total := flight.destinationArrivalTime - flight.takeoffTime
  let elapsed := simTime - flight.takeoffTime
  if 0 < total then elapsed / total * 100
  else if flight.destinationArrivalTime < simTime then 100
  else 0

def checkPlaneStatusAtTime (flight : Flight) (checkTime : ℚ) : String :=
  if flight.destinationArrivalTime < checkTime then
    "landed or still landing"
  else if flight.takeoffTime < checkTime ∧ checkTime < flight.destinationArrivalTime then
    if flight.flightStatus = "about to land" then "about to land" else "in transit"
  else if checkTime = flight.takeoffTime then
    "taking off"
  else if checkTime = flight.destinationArrivalTime then
    "arriving"
  else
    "parked/unknown"

def getPlanePosition (flight : Flight) (checkTime : ℚ) : Coordinate :=
  if flight.takeoffTime < checkTime ∧ checkTime < flight.destinationArrivalTime then
    let totalDuration := flight.destinationArrivalTime - flight.takeoffTime
    let elapsedDuration := checkTime - flight.takeoffTime
    let pct := if 0 < totalDuration then clamp (elapsedDuration / totalDuration) 0 1 else 0
    let pathVector := flight.flightPath.destination.subtract flight.flightPath.depature
    flight.flightPath.depature.add (pathVector.mulScalar pct)
  else if flight.destinationArrivalTime < checkTime then
    flight.flightPath.destination
  else
    flight.flightPath.depature

def planeCurrentPosition (plane : Plane) (simTime : ℚ) : Coordinate × Bool :=
  if plane.flightLog = [] then
    (default, false)
  else
    let currentFlight := plane.flightLog.getLastD default
    if simTime < currentFlight.takeoffTime then
      (currentFlight.flightSchedule.depature, false)
    else if currentFlight.destinationArrivalTime < simTime then
      (currentFlight.flightSchedule.destination, false)
    else
      let totalDuration := currentFlight.destinationArrivalTime - currentFlight.takeoffTime
      let elapsedDuration := simTime - currentFlight.takeoffTime
      if totalDuration = 0 then
        (currentFlight.flightSchedule.depature, true)
      else
        let t := elapsedDuration / totalDuration
        (⟨currentFlight.flightSchedule.depature.x +
            t * (currentFlight.flightSchedule.destination.x - currentFlight.flightSchedule.depature.x),
          currentFlight.flightSchedule.depature.y +
            t * (currentFlight.flightSchedule.destination.y - currentFlight.flightSchedule.depature.y),
          currentFlight.flightSchedule.depature.z +
            t * (currentFlight.flightSchedule.destination.z - currentFlight.flightSchedule.depature.z)⟩,
          true)

def GetClosestApproachDetails (f1 : Flight) (st : SimulationState) (f2 : Flight)
    (sqrtA : ℚ → ℚ) : ℚ × ℚ × String :=
  let flight1DistanceSq := distSq f1.flightSchedule.depature f1.flightSchedule.destination
  if flight1DistanceSq = 0 then
    -- to avoid division by 0: sentinel distance, takeoff time, empty status
    (sentinelDistSq, f1.takeoffTime, "")
  else if distSq f1.flightPath.depature f2.flightPath.destination < EpsilonSq ∧
      distSq f1.flightPath.destination f2.flightPath.depature < EpsilonSq then
    -- head-on ("parallel") situation
    let flight2Progress := getFlightProgress f2 st.currentSimTime
    let flight1Distance := sqrtA flight1DistanceSq
    let flight2DistanceCovered := flight1Distance * flight2Progress
    let flightToCover := flight1Distance - flight2DistanceCovered
    let secondsFloat := flightToCover / 2 / CruiseSpeed
    let timeToCollision := ratTrunc secondsFloat
    let closestTimeForPlane1 := f1.takeoffTime + timeToCollision
    (0, closestTimeForPlane1, checkPlaneStatusAtTime f2 closestTimeForPlane1)
  else
    let flight1ClosestCoord := (FindClosestApproachDuringTransit f1.flightSchedule f2.flightSchedule).1
    let distBtwDepatureAndCA := sqrtA (distSq f1.flightSchedule.depature flight1ClosestCoord)
    let f1fractionofCA := distBtwDepatureAndCA / sqrtA flight1DistanceSq
    let totalFlightDuration1 := f1.destinationArrivalTime - f1.takeoffTime
    let closestTimeForPlane1 := f1.takeoffTime + ratTrunc (totalFlightDuration1 * f1fractionofCA)
    let flight2CoordAtCATime1 := getPlanePosition f2 closestTimeForPlane1
    (distSq flight1ClosestCoord flight2CoordAtCATime1, closestTimeForPlane1,
      checkPlaneStatusAtTime f2 closestTimeForPlane1)

def generateSerialNumber (count : Nat) (pfx : String) : String :=
  pfx ++ toString (count + 1)

structure TcasAcc where
  simState : SimulationState
  plane : Plane
  engagements : List TCASEngagement
  rng : List ℚ
deriving DecidableEq, Inhabited

def tcasPairNewEngagement (wall : ℤ) (plane other : Plane) (planeFlight : Flight)
    (closestTimeForPlane1 : ℚ) (shouldCrash : Bool) : TCASEngagement :=
  if shouldCrash then
    { engagementID := plane.serial ++ "-" ++ toString wall
      flightID := planeFlight.flightID
      planeSerial := plane.serial
      otherPlaneSerial := other.serial
      timeOfEngagement := closestTimeForPlane1
      willCrash := true
      warningTriggered := false
      engaged := false }
  else
    { engagementID := plane.serial ++ generateSerialNumber plane.tcasEngagementRecords.length "e"
      flightID := planeFlight.flightID
      planeSerial := plane.serial
      otherPlaneSerial := other.serial
      timeOfEngagement := closestTimeForPlane1
      willCrash := false
      warningTriggered := false
      engaged := false }

def tcasPairCheck (wall : ℤ) (sqrtA : ℚ → ℚ) (planeFlight : Flight)
    (acc : TcasAcc) (otherPlane : Plane) : TcasAcc :=
  if acc.plane.serial = otherPlane.serial then acc
  else if ¬ otherPlane.planeInFlight then acc
  else
    let otherPlaneFlight := otherPlane.flightLog.getLastD default
    let ca := GetClosestApproachDetails planeFlight acc.simState otherPlaneFlight sqrtA
    let distanceAtCA := ca.1
    let closestTimeForPlane1 := ca.2.1
    let otherPlaneStatusAtCATime := ca.2.2
    -- Condition 1: landed / about to land / different altitude: skip
    if otherPlaneStatusAtCATime = "landed or still landing" ∨
        otherPlaneStatusAtCATime = "about to land" ∨
        otherPlaneFlight.cruisingAltitude ≠ planeFlight.cruisingAltitude then
      acc
    -- Condition 2: collision distance threshold
    else if distanceAtCA < CollisionThresholdSq then
      let resolved :=
        if acc.plane.tcasCapability = .TCASPerfect ∧ otherPlane.tcasCapability = .TCASPerfect then
          (false, acc.rng)
        else if (acc.plane.tcasCapability = .TCASPerfect ∧ otherPlane.tcasCapability = .TCASFaulty) ∨
            (acc.plane.tcasCapability = .TCASFaulty ∧ otherPlane.tcasCapability = .TCASPerfect) then
          let d := nextRand acc.rng
          (decide (d.1 < 1 / 4), d.2)
        else if acc.plane.tcasCapability = .TCASFaulty ∧ otherPlane.tcasCapability = .TCASFaulty then
          let d := nextRand acc.rng
          (decide (d.1 < 1 / 2), d.2)
        else
          (false, acc.rng)
      let newTcasEngagement : TCASEngagement :=
        tcasPairNewEngagement wall acc.plane otherPlane planeFlight closestTimeForPlane1
          resolved.1
      { acc with engagements := acc.engagements ++ [newTcasEngagement], rng := resolved.2 }
    else acc

def tcas (plane : Plane) (st : SimulationState) (rng : List ℚ) (wall : ℤ)
    (sqrtA : ℚ → ℚ) : TcasAcc :=
  let planeFlight := plane.flightLog.getLastD default
  let acc := st.planesInFlight.foldl (tcasPairCheck wall sqrtA planeFlight) ⟨st, plane, [], rng⟩
  { acc with
      engagements :=
        acc.engagements.mergeSort (fun a b => a.timeOfEngagement ≤ b.timeOfEngagement) }

def wFlight : Flight :=
  { flightID := "f1"
    flightSchedule := ⟨⟨0, 0, 0⟩, ⟨200, 0, 0⟩⟩
    takeoffTime := 0
    destinationArrivalTime := 20
    cruisingAltitude := 10000
    depatureAirPort := "ap1"
    arrivalAirPort := "ap2"
    flightStatus := "in transit"
    actualLandingTime := 0
    flightPath := ⟨⟨0, 0, 0⟩, ⟨200, 0, 0⟩⟩ }

def wRec : TCASEngagement :=
  { engagementID := "E-p1-p2-7"
    flightID := "f1"
    planeSerial := "p1"
    otherPlaneSerial := "p2"
    timeOfEngagement := 5
    willCrash := false
    warningTriggered := false
    engaged := true }

def wPlane1 : Plane :=
  { serial := "p1"
    planeInFlight := true
    cruiseSpeed := 10
    flightLog := [wFlight]
    tcasCapability := .TCASPerfect
    tcasEngagementRecords := [wRec] }

def wPlane2 : Plane :=
  { serial := "p2"
    planeInFlight := true
    cruiseSpeed := 10
    flightLog := [wFlight]
    tcasCapability := .TCASPerfect
    tcasEngagementRecords := [wRec] }

def wSimState : SimulationState :=
  { airports := []
    planesInFlight := [wPlane1, wPlane2]
    differentAltitudes := false
    simIsRunning := true
    simEndedTime := 0
    currentSimTime := 5 }

def wPlane3 : Plane :=
  { serial := "p3"
    planeInFlight := true
    cruiseSpeed := 10
    flightLog := [wFlight]
    tcasCapability := .TCASPerfect
    tcasEngagementRecords := [] }

def wPlane4 : Plane :=
  { serial := "p4"
    planeInFlight := true
    cruiseSpeed := 10
    flightLog := [wFlight]
    tcasCapability := .TCASFaulty
    tcasEngagementRecords := [] }

def wDegFlight : Flight :=
  { flightID := "f9"
    flightSchedule := ⟨⟨5, 5, 0⟩, ⟨5, 5, 0⟩⟩
    takeoffTime := 0
    destinationArrivalTime := 0
    cruisingAltitude := 10000
    depatureAirPort := "ap1"
    arrivalAirPort := "ap1"
    flightStatus := "taking off"
    actualLandingTime := 0
    flightPath := ⟨⟨5, 5, 0⟩, ⟨5, 5, 0⟩⟩ }

def wPlaneDeg : Plane :=
  { serial := "p9"
    planeInFlight := true
    cruiseSpeed := 10
    flightLog := [wDegFlight]
    tcasCapability := .TCASFaulty
    tcasEngagementRecords := [] }

structure LayoutPairResult where
  plane : Plane
  other : Plane
  mostCritical : Option TCASEngagement
  rng : List ℚ
  breakLoop : Bool
deriving DecidableEq, Inhabited

def layoutPairStep (st : SimulationState) (wall : ℤ) (simTime : ℚ)
    (plane other : Plane) (mostCritical : Option TCASEngagement) (rng : List ℚ) :
    LayoutPairResult :=
  if plane.serial = other.serial then ⟨plane, other, mostCritical, rng, false⟩
  else if (plane.flightLog.getLastD default).cruisingAltitude ≠
      (other.flightLog.getLastD default).cruisingAltitude then
    ⟨plane, other, mostCritical, rng, false⟩
  else
    let otherState := planeCurrentPosition other simTime
    if ¬ otherState.2 then ⟨plane, other, mostCritical, rng, false⟩
    else
      let planeCoord := (planeCurrentPosition plane simTime).1
      let distanceBetweenPlanesSq := distSq planeCoord otherState.1
      if distanceBetweenPlanesSq < TriggerEngageTCASSq then
        let r := tcasCore st wall rng plane other
        ⟨r.plane1, r.plane2, some r.engagement, r.rng, true⟩
      else if distanceBetweenPlanesSq < TriggerTCASSq then
        if mostCritical = none then
          let tempEngagement : TCASEngagement :=
            { engagementID := "W-Disp-" ++ plane.serial ++ "-" ++ other.serial ++ "-" ++
                toString simTime
              flightID := ""
              planeSerial := plane.serial
              otherPlaneSerial := other.serial
              timeOfEngagement := simTime
              willCrash := false
              warningTriggered := true
              engaged := false }
          ⟨plane, other, some tempEngagement, rng, false⟩
        else ⟨plane, other, mostCritical, rng, false⟩
      else ⟨plane, other, mostCritical, rng, false⟩

def altFilterOK (planesInFlight : List Plane) (planeFlight : Flight)
    (e : TCASEngagement) : Prop :=
  ∃ q ∈ planesInFlight, q.serial = e.otherPlaneSerial ∧
    (q.flightLog.getLastD default).cruisingAltitude = planeFlight.cruisingAltitude ∧
    e.flightID = planeFlight.flightID

def wFlightHigh : Flight :=
  { wFlight with flightID := "f2", cruisingAltitude := 11000 }

def wPlane5 : Plane :=
  { serial := "p5"
    planeInFlight := true
    cruiseSpeed := 10
    flightLog := [wFlightHigh]
    tcasCapability := .TCASPerfect
    tcasEngagementRecords := [] }

structure SupervisorState where
  cancelFuncPresent : Bool
  timerRunning : Bool
  cancelSignalled : Bool
deriving DecidableEq, Inhabited

def EmergencyStop (s : SupervisorState) : SupervisorState :=
  if s.cancelFuncPresent then
    { cancelFuncPresent := false, timerRunning := false, cancelSignalled := true }
  else
    s

inductive LockEvent where
  | airportLock
  | airportUnlock
  | simLock
  | simUnlock
deriving DecidableEq, Inhabited

inductive LandError where
  | noFlightHistory
  | destinationMismatch
  | planeNotInFlight
deriving DecidableEq, Inhabited

structure LandResult where
  airport : Airport
  plane : Plane
  simState : SimulationState
  err : Option LandError
  trace : List LockEvent
deriving DecidableEq, Inhabited

def setLastFlightStatus (log : List Flight) (s : String) : List Flight :=
  match log with
  | [] => []
  | [f] => [{ f with flightStatus := s }]
  | f :: rest => f :: setLastFlightStatus rest s

def setLastFlightLanded (log : List Flight) (t : ℚ) : List Flight :=
  match log with
  | [] => []
  | [f] => [{ f with flightStatus := "landed", actualLandingTime := t }]
  | f :: rest => f :: setLastFlightLanded rest t

def Land (ap : Airport) (plane : Plane) (st : SimulationState) : LandResult :=
  -- ap.Mu.Lock(); noOfRunwayinUse++; ReceivingPlane = true; ap.Mu.Unlock()
  -- defer: relock, ReceivingPlane = false, unlock (runs at every exit below)
  let ap1 : Airport := { ap with
    runway := { ap.runway with noOfRunwayinUse := ap.runway.noOfRunwayinUse + 1 }
    receivingPlane := true }
  let trace0 : List LockEvent := [.airportLock, .airportUnlock]
  if plane.flightLog = [] then
    { airport := { ap1 with receivingPlane := false }
      plane := plane
      simState := st
      err := some .noFlightHistory
      trace := trace0 ++ [.airportLock, .airportUnlock] }
  else
    let currentFlight := plane.flightLog.getLastD default
    let plane1 : Plane :=
      { plane with flightLog := setLastFlightStatus plane.flightLog "about to land" }
    if EpsilonSq < distSq ap.location currentFlight.flightSchedule.destination then
      -- destination mismatch: abort; only the deferred ReceivingPlane reset runs
      { airport := { ap1 with receivingPlane := false }
        plane := plane1
        simState := st
        err := some .destinationMismatch
        trace := trace0 ++ [.airportLock, .airportUnlock] }
    else
      -- ap.Mu.Lock(); defer ap.Mu.Unlock(); noOfRunwayinUse--
      let ap2 : Airport := { ap1 with
        runway := { ap1.runway with noOfRunwayinUse := ap1.runway.noOfRunwayinUse - 1 } }
      -- simState.Mu.Lock(); search PlanesInFlight by serial
      match st.planesInFlight.findIdx? (fun p => p.serial == plane.serial) with
      | none =>
        { airport := { ap2 with receivingPlane := false }
          plane := plane1
          simState := st
          err := some .planeNotInFlight
          trace := trace0 ++ [.airportLock, .simLock, .simUnlock, .airportUnlock,
            .airportLock, .airportUnlock] }
      | some i =>
        let st1 : SimulationState :=
          { st with planesInFlight := st.planesInFlight.eraseIdx i }
        let plane2 : Plane := { plane1 with
          planeInFlight := false
          flightLog := setLastFlightLanded plane1.flightLog st.currentSimTime }
        let ap3 : Airport := { ap2 with
          planes := ap2.planes ++ [plane2]
          receivingPlane := false }
        { airport := ap3
          plane := plane2
          simState := st1
          err := none
          trace := trace0 ++ [.airportLock, .simLock, .simUnlock, .airportUnlock,
            .airportLock, .airportUnlock] }

def lockStep (held : Bool × Bool) (e : LockEvent) : Bool × Bool :=
  match e with
  | .airportLock => (true, held.2)
  | .airportUnlock => (false, held.2)
  | .simLock => (held.1, true)
  | .simUnlock => (held.1, false)

def lockStates (tr : List LockEvent) : List (Bool × Bool) :=
  tr.scanl lockStep (false, false)

def bothHeldSomewhere (tr : List LockEvent) : Bool :=
  (lockStates tr).any fun held => held.1 && held.2

def simImpliesAirport (tr : List LockEvent) : Bool :=
  (lockStates tr).all fun held => !held.2 || held.1

def locksHeldAfter (tr : List LockEvent) : Bool × Bool :=
  tr.foldl lockStep (false, false)

def wAirport : Airport :=
  { serial := "ap1"
    location := ⟨0, 0, 0⟩
    initialPlaneAmount := 1
    runway := { numberOfRunway := 1, noOfRunwayinUse := 0 }
    planes := []
    receivingPlane := false }

def wLandingFlight : Flight :=
  { flightID := "f3"
    flightSchedule := ⟨⟨200, 0, 0⟩, ⟨0, 0, 0⟩⟩
    takeoffTime := 0
    destinationArrivalTime := 20
    cruisingAltitude := 10000
    depatureAirPort := "ap2"
    arrivalAirPort := "ap1"
    flightStatus := "in transit"
    actualLandingTime := 0
    flightPath := ⟨⟨200, 0, 0⟩, ⟨0, 0, 0⟩⟩ }

def wPlaneLanding : Plane :=
  { serial := "p1"
    planeInFlight := true
    cruiseSpeed := 10
    flightLog := [wLandingFlight]
    tcasCapability := .TCASPerfect
    tcasEngagementRecords := [] }

def wStLanding : SimulationState :=
  { airports := []
    planesInFlight := [wPlaneLanding]
    differentAltitudes := false
    simIsRunning := true
    simEndedTime := 0
    currentSimTime := 25 }

def wMismatchFlight : Flight :=
  { wLandingFlight with flightID := "f4", flightSchedule := ⟨⟨200, 0, 0⟩, ⟨500, 0, 0⟩⟩ }

def wPlaneMismatch : Plane :=
  { wPlaneLanding with flightLog := [wMismatchFlight] }

/-! ## Theorems: the claims, their witnesses and counterexamples -/

theorem countP_append_single (l : List TCASEngagement) (e : TCASEngagement)
    (p : TCASEngagement → Bool) :
    List.countP p (l ++ [e]) = List.countP p l + (if p e then 1 else 0) := by
  simp [List.countP_append, List.countP_cons]

theorem pairAndFlightMatch_tcasCoreNew (st : SimulationState) (wall : ℤ) (wc : Bool)
    (p1 p2 : Plane) (fid fid0 : String) :
    pairAndFlightMatch p1.serial p2.serial fid (tcasCoreNewEngagement st wall wc p1 p2 fid0) =
      (fid0 == fid) := by
  simp [pairAndFlightMatch, tcasCoreNewEngagement]

theorem tcasCore_engagement_unique :
    (∀ (st : SimulationState) (wall : ℤ) (rng : List ℚ) (p1 p2 : Plane)
        (rec : TCASEngagement),
        currentFlightID p1 ≠ "" →
        findExistingEngagement p1 p2 (currentFlightID p1) = some rec →
        tcasCore st wall rng p1 p2 = ⟨p1, p2, rec, rng⟩) ∧
    (∀ (st : SimulationState) (wall : ℤ) (rng : List ℚ) (p1 p2 : Plane) (fid : String),
        engagedCount p1 p1.serial p2.serial fid = engagedCount p2 p1.serial p2.serial fid →
        engagedCount p1 p1.serial p2.serial fid ≤ 1 →
        engagedCount (tcasCore st wall rng p1 p2).plane1 p1.serial p2.serial fid ≤ 1 ∧
        engagedCount (tcasCore st wall rng p1 p2).plane2 p1.serial p2.serial fid ≤ 1) := by
  constructor
  · intro st wall rng p1 p2 rec h1 h2
    simp only [tcasCore, h2, if_neg h1]
  · intro st wall rng p1 p2 fid hsync hle
    have hsync' := hsync
    have hle' := hle
    simp only [engagedCount] at hsync' hle'
    by_cases h0 : currentFlightID p1 = ""
    · simp only [tcasCore, if_pos h0]
      exact ⟨hle, hsync ▸ hle⟩
    · rcases hfind : findExistingEngagement p1 p2 (currentFlightID p1) with _ | rec
      · simp only [tcasCore, if_neg h0, hfind, engagedCount, countP_append_single,
          pairAndFlightMatch_tcasCoreNew]
        by_cases hfid : currentFlightID p1 = fid
        · subst hfid
          have hzero : List.countP
              (pairAndFlightMatch p1.serial p2.serial (currentFlightID p1))
              p1.tcasEngagementRecords = 0 :=
            List.countP_eq_zero.mpr
              (List.find?_eq_none.mp (by simpa [findExistingEngagement] using hfind))
          simp only [beq_self_eq_true, if_pos]
          omega
        · have hbeq : (currentFlightID p1 == fid) = false := by
            simpa using hfid
          rw [hbeq]
          simp only [Bool.false_eq_true, if_false]
          omega
      · simp only [tcasCore, if_neg h0, hfind]
        exact ⟨hle, hsync ▸ hle⟩

theorem tcasCore_engagement_unique_witness :
    tcasCore wSimState 7 [1 / 2] wPlane1 wPlane2 = ⟨wPlane1, wPlane2, wRec, [1 / 2]⟩ :=
  tcasCore_engagement_unique.1 wSimState 7 [1 / 2] wPlane1 wPlane2 wRec
    (by decide) (by decide)

theorem tcasPairNewEngagement_willCrash (wall : ℤ) (p o : Plane) (f : Flight) (t : ℚ)
    (wc : Bool) : (tcasPairNewEngagement wall p o f t wc).willCrash = wc := by
  cases wc <;> simp [tcasPairNewEngagement]

theorem tcas_resolution_draw :
    (∀ (st : SimulationState) (wall : ℤ) (u : ℚ) (rest : List ℚ) (p1 p2 : Plane),
        currentFlightID p1 ≠ "" →
        findExistingEngagement p1 p2 (currentFlightID p1) = none →
        ((p1.tcasCapability = .TCASPerfect ∧ p2.tcasCapability = .TCASPerfect →
            (tcasCore st wall (u :: rest) p1 p2).engagement.willCrash = false ∧
            (tcasCore st wall (u :: rest) p1 p2).rng = u :: rest) ∧
          ((p1.tcasCapability = .TCASPerfect ∧ p2.tcasCapability = .TCASFaulty) ∨
              (p1.tcasCapability = .TCASFaulty ∧ p2.tcasCapability = .TCASPerfect) →
            (tcasCore st wall (u :: rest) p1 p2).engagement.willCrash = decide (u < 1 / 4) ∧
            (tcasCore st wall (u :: rest) p1 p2).rng = rest) ∧
          (p1.tcasCapability = .TCASFaulty ∧ p2.tcasCapability = .TCASFaulty →
            (tcasCore st wall (u :: rest) p1 p2).engagement.willCrash = decide (u < 1 / 2) ∧
            (tcasCore st wall (u :: rest) p1 p2).rng = rest))) ∧
    (∀ (wall : ℤ) (sqrtA : ℚ → ℚ) (planeFlight : Flight) (acc : TcasAcc) (other : Plane)
        (u : ℚ) (rest : List ℚ) (dca tca : ℚ) (sts : String),
        acc.plane.serial ≠ other.serial →
        other.planeInFlight = true →
        GetClosestApproachDetails planeFlight acc.simState (other.flightLog.getLastD default)
            sqrtA = (dca, tca, sts) →
        ¬(sts = "landed or still landing" ∨ sts = "about to land" ∨
            (other.flightLog.getLastD default).cruisingAltitude ≠ planeFlight.cruisingAltitude) →
        dca < CollisionThresholdSq →
        acc.rng = u :: rest →
        ((acc.plane.tcasCapability = .TCASPerfect ∧ other.tcasCapability = .TCASPerfect →
            ∃ e, (tcasPairCheck wall sqrtA planeFlight acc other).engagements =
                acc.engagements ++ [e] ∧ e.willCrash = false ∧
              (tcasPairCheck wall sqrtA planeFlight acc other).rng = u :: rest) ∧
          ((acc.plane.tcasCapability = .TCASPerfect ∧ other.tcasCapability = .TCASFaulty) ∨
              (acc.plane.tcasCapability = .TCASFaulty ∧ other.tcasCapability = .TCASPerfect) →
            ∃ e, (tcasPairCheck wall sqrtA planeFlight acc other).engagements =
                acc.engagements ++ [e] ∧ e.willCrash = decide (u < 1 / 4) ∧
              (tcasPairCheck wall sqrtA planeFlight acc other).rng = rest) ∧
          (acc.plane.tcasCapability = .TCASFaulty ∧ other.tcasCapability = .TCASFaulty →
            ∃ e, (tcasPairCheck wall sqrtA planeFlight acc other).engagements =
                acc.engagements ++ [e] ∧ e.willCrash = decide (u < 1 / 2) ∧
              (tcasPairCheck wall sqrtA planeFlight acc other).rng = rest))) := by
  constructor
  · intro st wall u rest p1 p2 h0 hf
    refine ⟨?_, ?_, ?_⟩
    · rintro ⟨hc1, hc2⟩
      simp [tcasCore, if_neg h0, hf, hc1, hc2, tcasCoreNewEngagement]
    · rintro (⟨hc1, hc2⟩ | ⟨hc1, hc2⟩) <;>
        simp [tcasCore, if_neg h0, hf, hc1, hc2, tcasCoreNewEngagement, nextRand]
    · rintro ⟨hc1, hc2⟩
      simp [tcasCore, if_neg h0, hf, hc1, hc2, tcasCoreNewEngagement, nextRand]
  · intro wall sqrtA planeFlight acc other u rest dca tca sts hself hin hca hskip hd hrng
    rcases not_or.mp hskip with ⟨hs1, hrest⟩
    rcases not_or.mp hrest with ⟨hs2, hs3⟩
    have hs3' : (other.flightLog.getLastD default).cruisingAltitude =
        planeFlight.cruisingAltitude := not_not.mp hs3
    simp only [List.getLastD_eq_getLast?] at hca hs3'
    refine ⟨?_, ?_, ?_⟩
    · rintro ⟨hc1, hc2⟩
      have hstep : tcasPairCheck wall sqrtA planeFlight acc other =
          { acc with
              engagements := acc.engagements ++
                [tcasPairNewEngagement wall acc.plane other planeFlight tca false] } := by
        simp [tcasPairCheck, hca, hself, hin, hs1, hs2, hs3', hd, hc1, hc2]
      exact ⟨tcasPairNewEngagement wall acc.plane other planeFlight tca false,
        by rw [hstep], tcasPairNewEngagement_willCrash wall acc.plane other planeFlight tca false,
        by rw [hstep]; exact hrng⟩
    · rintro (⟨hc1, hc2⟩ | ⟨hc1, hc2⟩) <;>
      · have hstep : tcasPairCheck wall sqrtA planeFlight acc other =
            { acc with
                engagements := acc.engagements ++
                  [tcasPairNewEngagement wall acc.plane other planeFlight tca
                      (decide (u < 1 / 4))],
                rng := rest } := by
          simp [tcasPairCheck, hca, hself, hin, hs1, hs2, hs3', hd, hc1, hc2, hrng, nextRand]
        exact ⟨tcasPairNewEngagement wall acc.plane other planeFlight tca (decide (u < 1 / 4)),
          by rw [hstep],
          tcasPairNewEngagement_willCrash wall acc.plane other planeFlight tca _,
          by rw [hstep]⟩
    · rintro ⟨hc1, hc2⟩
      have hstep : tcasPairCheck wall sqrtA planeFlight acc other =
          { acc with
              engagements := acc.engagements ++
                [tcasPairNewEngagement wall acc.plane other planeFlight tca
                    (decide (u < 1 / 2))],
              rng := rest } := by
        simp [tcasPairCheck, hca, hself, hin, hs1, hs2, hs3', hd, hc1, hc2, hrng, nextRand]
      exact ⟨tcasPairNewEngagement wall acc.plane other planeFlight tca (decide (u < 1 / 2)),
        by rw [hstep],
        tcasPairNewEngagement_willCrash wall acc.plane other planeFlight tca _,
        by rw [hstep]⟩

theorem tcas_resolution_draw_witness :
    (tcasCore wSimState 3 [(1 : ℚ) / 8] wPlane3 wPlane4).engagement.willCrash =
      decide ((1 : ℚ) / 8 < 1 / 4) ∧
    (tcasCore wSimState 3 [(1 : ℚ) / 8] wPlane3 wPlane4).rng = [] :=
  (tcas_resolution_draw.1 wSimState 3 ((1 : ℚ) / 8) [] wPlane3 wPlane4
    (by decide) (by decide)).2.1 (Or.inl ⟨rfl, rfl⟩)

theorem tcasPairCheck_state_plane (wall : ℤ) (sqrtA : ℚ → ℚ) (planeFlight : Flight)
    (acc : TcasAcc) (other : Plane) :
    (tcasPairCheck wall sqrtA planeFlight acc other).simState = acc.simState ∧
    (tcasPairCheck wall sqrtA planeFlight acc other).plane = acc.plane := by
  unfold tcasPairCheck
  dsimp only
  repeat' split
  all_goals exact ⟨rfl, rfl⟩

theorem tcasFold_state_plane (wall : ℤ) (sqrtA : ℚ → ℚ) (planeFlight : Flight)
    (l : List Plane) (acc : TcasAcc) :
    ((l.foldl (tcasPairCheck wall sqrtA planeFlight) acc).simState = acc.simState ∧
      (l.foldl (tcasPairCheck wall sqrtA planeFlight) acc).plane = acc.plane) := by
  induction l generalizing acc with
  | nil => exact ⟨rfl, rfl⟩
  | cons p l ih =>
    simp only [List.foldl_cons]
    have h1 := tcasPairCheck_state_plane wall sqrtA planeFlight acc p
    have h2 := ih (tcasPairCheck wall sqrtA planeFlight acc p)
    exact ⟨h2.1.trans h1.1, h2.2.trans h1.2⟩

theorem tcas_frame (plane : Plane) (st : SimulationState) (rng : List ℚ) (wall : ℤ)
    (sqrtA : ℚ → ℚ) :
    (tcas plane st rng wall sqrtA).simState = st ∧
    (tcas plane st rng wall sqrtA).plane = plane := by
  have h := tcasFold_state_plane wall sqrtA (plane.flightLog.getLastD default)
    st.planesInFlight ⟨st, plane, [], rng⟩
  simpa [tcas] using h

theorem checkPlaneStatusAtTime_cases :
    (∀ (f : Flight) (t : ℚ),
        checkPlaneStatusAtTime f t = "landed or still landing" ∨
        checkPlaneStatusAtTime f t = "about to land" ∨
        checkPlaneStatusAtTime f t = "in transit" ∨
        checkPlaneStatusAtTime f t = "taking off" ∨
        checkPlaneStatusAtTime f t = "arriving" ∨
        checkPlaneStatusAtTime f t = "parked/unknown") ∧
    (∀ (f : Flight) (t : ℚ), f.destinationArrivalTime < t →
        checkPlaneStatusAtTime f t = "landed or still landing") ∧
    (∀ (f : Flight) (t : ℚ), f.takeoffTime < t → t < f.destinationArrivalTime →
        checkPlaneStatusAtTime f t =
          if f.flightStatus = "about to land" then "about to land" else "in transit") ∧
    (∀ f : Flight, f.takeoffTime < f.destinationArrivalTime →
        checkPlaneStatusAtTime f f.takeoffTime = "taking off") ∧
    (∀ f : Flight, f.takeoffTime < f.destinationArrivalTime →
        checkPlaneStatusAtTime f f.destinationArrivalTime = "arriving") ∧
    (∀ (f : Flight) (t : ℚ), f.takeoffTime < f.destinationArrivalTime → t < f.takeoffTime →
        checkPlaneStatusAtTime f t = "parked/unknown") ∧
    (∀ f : Flight, f.takeoffTime < f.destinationArrivalTime →
        ¬(checkPlaneStatusAtTime f f.destinationArrivalTime = "landed or still landing" ∨
          checkPlaneStatusAtTime f f.destinationArrivalTime = "about to land")) := by
  refine ⟨?_, ?_, ?_, ?_, ?_, ?_, ?_⟩
  · intro f t
    unfold checkPlaneStatusAtTime
    split
    · exact Or.inl rfl
    · split
      · split
        · exact Or.inr (Or.inl rfl)
        · exact Or.inr (Or.inr (Or.inl rfl))
      · split
        · exact Or.inr (Or.inr (Or.inr (Or.inl rfl)))
        · split
          · exact Or.inr (Or.inr (Or.inr (Or.inr (Or.inl rfl))))
          · exact Or.inr (Or.inr (Or.inr (Or.inr (Or.inr rfl))))
  · intro f t h
    simp [checkPlaneStatusAtTime, h]
  · intro f t h1 h2
    simp [checkPlaneStatusAtTime, asymm h2, h1, h2]
  · intro f h
    simp [checkPlaneStatusAtTime, asymm h, lt_irrefl]
  · intro f h
    simp [checkPlaneStatusAtTime, lt_irrefl, ne_of_gt h]
  · intro f t h1 h2
    have h3 : t < f.destinationArrivalTime := h2.trans h1
    simp [checkPlaneStatusAtTime, asymm h3, asymm h2, ne_of_lt h2, ne_of_lt h3]
  · intro f h
    simp [checkPlaneStatusAtTime, lt_irrefl, ne_of_gt h]

theorem checkPlaneStatusAtTime_cases_witness :
    checkPlaneStatusAtTime wFlight wFlight.destinationArrivalTime = "arriving" ∧
    ¬(checkPlaneStatusAtTime wFlight wFlight.destinationArrivalTime =
        "landed or still landing" ∨
      checkPlaneStatusAtTime wFlight wFlight.destinationArrivalTime = "about to land") :=
  ⟨checkPlaneStatusAtTime_cases.2.2.2.2.1 wFlight (by decide),
    checkPlaneStatusAtTime_cases.2.2.2.2.2.2 wFlight (by decide)⟩

theorem tcasPairCheck_degenerate (wall : ℤ) (sqrtA : ℚ → ℚ) (planeFlight : Flight)
    (acc : TcasAcc) (other : Plane)
    (h : distSq planeFlight.flightSchedule.depature planeFlight.flightSchedule.destination = 0) :
    tcasPairCheck wall sqrtA planeFlight acc other = acc := by
  have hca : ∀ (st : SimulationState) (f2 : Flight),
      GetClosestApproachDetails planeFlight st f2 sqrtA =
        (sentinelDistSq, planeFlight.takeoffTime, "") := by
    intro st f2
    simp [GetClosestApproachDetails, h]
  have hsent : ¬ sentinelDistSq < CollisionThresholdSq := by
    norm_num [sentinelDistSq, CollisionThresholdSq]
  simp [tcasPairCheck, hca, hsent]

theorem tcasFold_degenerate (wall : ℤ) (sqrtA : ℚ → ℚ) (planeFlight : Flight)
    (l : List Plane) (acc : TcasAcc)
    (h : distSq planeFlight.flightSchedule.depature planeFlight.flightSchedule.destination = 0) :
    l.foldl (tcasPairCheck wall sqrtA planeFlight) acc = acc := by
  induction l with
  | nil => rfl
  | cons p l ih =>
    rw [List.foldl_cons, tcasPairCheck_degenerate wall sqrtA planeFlight acc p h]
    exact ih

theorem degenerate_flight_no_engagement :
    (∀ (f1 : Flight) (st : SimulationState) (f2 : Flight) (sqrtA : ℚ → ℚ),
        distSq f1.flightSchedule.depature f1.flightSchedule.destination = 0 →
        GetClosestApproachDetails f1 st f2 sqrtA = (sentinelDistSq, f1.takeoffTime, "") ∧
        ¬ sentinelDistSq < CollisionThresholdSq) ∧
    (∀ (plane : Plane) (st : SimulationState) (rng : List ℚ) (wall : ℤ) (sqrtA : ℚ → ℚ),
        distSq (plane.flightLog.getLastD default).flightSchedule.depature
            (plane.flightLog.getLastD default).flightSchedule.destination = 0 →
        (tcas plane st rng wall sqrtA).engagements = []) := by
  constructor
  · intro f1 st f2 sqrtA h
    constructor
    · simp [GetClosestApproachDetails, h]
    · norm_num [sentinelDistSq, CollisionThresholdSq]
  · intro plane st rng wall sqrtA h
    unfold tcas
    dsimp only
    rw [tcasFold_degenerate wall sqrtA _ st.planesInFlight ⟨st, plane, [], rng⟩ h]
    simp [List.mergeSort_nil]

theorem degenerate_flight_no_engagement_witness :
    (tcas wPlaneDeg wSimState [1 / 2] 0 (fun _ => 0)).engagements = [] :=
  degenerate_flight_no_engagement.2 wPlaneDeg wSimState [1 / 2] 0 (fun _ => 0)
    (by norm_num [wPlaneDeg, wDegFlight, distSq])

theorem tcasPairNewEngagement_fields (wall : ℤ) (p o : Plane) (f : Flight) (t : ℚ)
    (wc : Bool) :
    (tcasPairNewEngagement wall p o f t wc).otherPlaneSerial = o.serial ∧
    (tcasPairNewEngagement wall p o f t wc).flightID = f.flightID := by
  cases wc <;> simp [tcasPairNewEngagement]

theorem tcasPairCheck_engagements_sub (wall : ℤ) (sqrtA : ℚ → ℚ) (planeFlight : Flight)
    (acc : TcasAcc) (other : Plane) :
    ∀ e ∈ (tcasPairCheck wall sqrtA planeFlight acc other).engagements,
      e ∈ acc.engagements ∨
        (e.otherPlaneSerial = other.serial ∧ e.flightID = planeFlight.flightID ∧
          (other.flightLog.getLastD default).cruisingAltitude = planeFlight.cruisingAltitude) := by
  intro e he
  unfold tcasPairCheck at he
  dsimp only at he
  split at he
  · exact Or.inl he
  · split at he
    · exact Or.inl he
    · split at he
      · exact Or.inl he
      · rename_i hskip
        split at he
        · have halt : (other.flightLog.getLastD default).cruisingAltitude =
              planeFlight.cruisingAltitude := by
            rcases not_or.mp hskip with ⟨-, h2⟩
            exact not_not.mp (not_or.mp h2).2
          simp only [List.mem_append, List.mem_singleton] at he
          rcases he with h | h
          · exact Or.inl h
          · subst h
            exact Or.inr ⟨(tcasPairNewEngagement_fields _ _ _ _ _ _).1,
              (tcasPairNewEngagement_fields _ _ _ _ _ _).2, halt⟩
        · exact Or.inl he

theorem tcasFold_alt_invariant (wall : ℤ) (sqrtA : ℚ → ℚ) (planeFlight : Flight)
    (l0 : List Plane) :
    ∀ (l : List Plane), (∀ p ∈ l, p ∈ l0) → ∀ (acc : TcasAcc),
      (∀ e ∈ acc.engagements, altFilterOK l0 planeFlight e) →
      ∀ e ∈ (l.foldl (tcasPairCheck wall sqrtA planeFlight) acc).engagements,
        altFilterOK l0 planeFlight e := by
  intro l
  induction l with
  | nil => exact fun _ acc hacc e he => hacc e he
  | cons p l ih =>
    intro hsub acc hacc e he
    rw [List.foldl_cons] at he
    refine ih (fun q hq => hsub q (List.mem_cons_of_mem _ hq)) _ ?_ e he
    intro e' he'
    rcases tcasPairCheck_engagements_sub wall sqrtA planeFlight acc p e' he' with h | ⟨h1, h2, h3⟩
    · exact hacc e' h
    · exact ⟨p, hsub p (List.mem_cons_self _ _), h1.symm, h3, h2⟩

theorem tcas_skip_and_altitude_filter :
    (∀ (wall : ℤ) (sqrtA : ℚ → ℚ) (planeFlight : Flight) (acc : TcasAcc) (other : Plane),
        ((GetClosestApproachDetails planeFlight acc.simState (other.flightLog.getLastD default)
              sqrtA).2.2 = "landed or still landing" ∨
          (GetClosestApproachDetails planeFlight acc.simState (other.flightLog.getLastD default)
              sqrtA).2.2 = "about to land" ∨
          (other.flightLog.getLastD default).cruisingAltitude ≠ planeFlight.cruisingAltitude) →
        tcasPairCheck wall sqrtA planeFlight acc other = acc) ∧
    (∀ (plane : Plane) (st : SimulationState) (rng : List ℚ) (wall : ℤ) (sqrtA : ℚ → ℚ),
        ∀ e ∈ (tcas plane st rng wall sqrtA).engagements,
          altFilterOK st.planesInFlight (plane.flightLog.getLastD default) e) ∧
    (∀ (st : SimulationState) (wall : ℤ) (simTime : ℚ) (plane other : Plane)
        (mostCritical : Option TCASEngagement) (rng : List ℚ),
        (plane.flightLog.getLastD default).cruisingAltitude ≠
          (other.flightLog.getLastD default).cruisingAltitude →
        layoutPairStep st wall simTime plane other mostCritical rng =
          ⟨plane, other, mostCritical, rng, false⟩) := by
  refine ⟨?_, ?_, ?_⟩
  · intro wall sqrtA planeFlight acc other h
    unfold tcasPairCheck
    dsimp only
    rw [if_pos h]
    simp only [ite_self]
  · intro plane st rng wall sqrtA e he
    unfold tcas at he
    dsimp only at he
    rw [List.mem_mergeSort] at he
    exact tcasFold_alt_invariant wall sqrtA _ st.planesInFlight st.planesInFlight
      (fun p hp => hp) ⟨st, plane, [], rng⟩ (fun e' he' => absurd he' (List.not_mem_nil e')) e he
  · intro st wall simTime plane other mostCritical rng h
    unfold layoutPairStep
    rw [if_pos h]
    simp only [ite_self]

theorem tcas_skip_and_altitude_filter_witness :
    tcasPairCheck 0 (fun _ => 0) wFlight ⟨wSimState, wPlane1, [], []⟩ wPlane5 =
      ⟨wSimState, wPlane1, [], []⟩ :=
  tcas_skip_and_altitude_filter.1 0 (fun _ => 0) wFlight ⟨wSimState, wPlane1, [], []⟩ wPlane5
    (Or.inr (Or.inr (by norm_num [wPlane5, wFlightHigh, wFlight])))

theorem getPlanePosition_at_arrival_bug :
    getPlanePosition wFlight (wFlight.takeoffTime +
        (wFlight.destinationArrivalTime - wFlight.takeoffTime)) =
      wFlight.flightPath.depature ∧
    wFlight.flightPath.depature ≠ wFlight.flightPath.destination ∧
    EpsilonSq < distSq (getPlanePosition wFlight (wFlight.takeoffTime +
        (wFlight.destinationArrivalTime - wFlight.takeoffTime)))
      wFlight.flightPath.destination := by
  refine ⟨?_, ?_, ?_⟩
  · norm_num [getPlanePosition, wFlight]
  · norm_num [wFlight]
  · norm_num [getPlanePosition, wFlight, distSq, EpsilonSq]

theorem emergencyStop_idempotent :
    (∀ s : SupervisorState, EmergencyStop (EmergencyStop s) = EmergencyStop s) ∧
    (∀ s : SupervisorState, s.cancelFuncPresent = true →
        (EmergencyStop s).cancelSignalled = true ∧
        (EmergencyStop s).timerRunning = false ∧
        (EmergencyStop s).cancelFuncPresent = false) ∧
    (∀ s : SupervisorState, s.cancelFuncPresent = false → EmergencyStop s = s) := by
  refine ⟨?_, ?_, ?_⟩
  · intro s
    by_cases h : s.cancelFuncPresent <;> simp [EmergencyStop, h]
  · intro s h
    simp [EmergencyStop, h]
  · intro s h
    simp [EmergencyStop, h]

theorem emergencyStop_idempotent_witness :
    (EmergencyStop ⟨true, true, false⟩).cancelSignalled = true ∧
    (EmergencyStop ⟨true, true, false⟩).timerRunning = false ∧
    (EmergencyStop ⟨true, true, false⟩).cancelFuncPresent = false :=
  emergencyStop_idempotent.2.1 ⟨true, true, false⟩ rfl

theorem land_mismatch_mutates_state :
    (Land wAirport wPlaneMismatch wStLanding).err = some .destinationMismatch ∧
    (Land wAirport wPlaneMismatch wStLanding).airport.runway.noOfRunwayinUse = 1 ∧
    wAirport.runway.noOfRunwayinUse = 0 ∧
    ((Land wAirport wPlaneMismatch wStLanding).plane.flightLog.getLastD
        default).flightStatus = "about to land" ∧
    (wPlaneMismatch.flightLog.getLastD default).flightStatus = "in transit" := by
  norm_num [Land, wAirport, wPlaneMismatch, wMismatchFlight, wPlaneLanding, wLandingFlight,
    wStLanding, distSq, EpsilonSq, setLastFlightStatus]

theorem land_destination_mismatch_aborts (ap : Airport) (plane : Plane) (st : SimulationState)
    (hlog : ¬ plane.flightLog = [])
    (hmis : EpsilonSq < distSq ap.location
        (plane.flightLog.getLastD default).flightSchedule.destination) :
    Land ap plane st =
      { airport := { ap with
          runway := { ap.runway with noOfRunwayinUse := ap.runway.noOfRunwayinUse + 1 }
          receivingPlane := false }
        plane := { plane with flightLog := setLastFlightStatus plane.flightLog "about to land" }
        simState := st
        err := some .destinationMismatch
        trace := [.airportLock, .airportUnlock, .airportLock, .airportUnlock] } := by
  unfold Land
  dsimp only
  rw [if_neg hlog, if_pos hmis]
  rfl

theorem land_destination_mismatch_aborts_witness :
    Land wAirport wPlaneMismatch wStLanding =
      { airport := { wAirport with
          runway := { wAirport.runway with
            noOfRunwayinUse := wAirport.runway.noOfRunwayinUse + 1 }
          receivingPlane := false }
        plane := { wPlaneMismatch with
          flightLog := setLastFlightStatus wPlaneMismatch.flightLog "about to land" }
        simState := wStLanding
        err := some .destinationMismatch
        trace := [.airportLock, .airportUnlock, .airportLock, .airportUnlock] } :=
  land_destination_mismatch_aborts wAirport wPlaneMismatch wStLanding
    (by simp [wPlaneMismatch, wPlaneLanding])
    (by norm_num [wAirport, wPlaneMismatch, wPlaneLanding, wMismatchFlight, wLandingFlight,
      distSq, EpsilonSq])

theorem land_holds_both_locks :
    (Land wAirport wPlaneLanding wStLanding).err = none ∧
    bothHeldSomewhere (Land wAirport wPlaneLanding wStLanding).trace = true := by
  norm_num [Land, wAirport, wPlaneLanding, wLandingFlight, wStLanding, distSq, EpsilonSq,
    bothHeldSomewhere, lockStates, lockStep, List.findIdx?_cons]

theorem land_lock_nesting (ap : Airport) (plane : Plane) (st : SimulationState) :
    simImpliesAirport (Land ap plane st).trace = true ∧
    locksHeldAfter (Land ap plane st).trace = (false, false) := by
  unfold Land
  dsimp only
  repeat' split
  all_goals refine ⟨?_, ?_⟩
  all_goals dsimp only
  all_goals decide
